import Mathlib

/-!
Verification of the Rally OpenStack Prometheus exporter
(`src/exporter/rally_exporter.py`) against its natural-language
specification.

The exporter is embedded shallowly:

* The two JSON documents the exporter reads are modelled by the typed
  structures `SummaryJson` / `CleanupJson`, whose optional fields mirror
  the `dict.get(key, default)` accesses of the source.  A file that is
  missing or holds malformed JSON is modelled as `none` (both raise the
  same caught exceptions in the source).
* The process-wide `prometheus_client` registry is the `Registry`
  structure: each labeled gauge is an insertion-ordered association list
  from label tuple to value (`Gauge.labels(...).set` updates in place or
  appends, exactly as `prometheus_client` keeps children), unlabeled
  gauges are plain rationals initialised to 0, and the error counter is
  an association list from the `file` label to its count.
* `datetime.strptime(ts, "%Y%m%dT%H%M%SZ")` is modelled faithfully to
  CPython `_strptime`: the format compiles to the regex
  `(?P<Y>\d\d\d\d) (?P<m>1[0-2]|0[1-9]|[1-9])
  (?P<d>3[0-1]|[1-2]\d|0[1-9]|[1-9]| [1-9]) T (?P<H>2[0-3]|[0-1]\d|\d)
  (?P<M>[0-5]\d|\d) (?P<S>6[0-1]|[0-5]\d|\d) Z`
  compiled with `re.IGNORECASE`, matched with backtracking in
  alternation-preference order, followed by the whole-string length
  check, `int()` conversion of each group and the `datetime`
  constructor's range validation.  `\d` in a str pattern matches every
  Unicode decimal digit (category Nd), and `int()` reads such digits at
  their decimal value; the Nd table (Unicode 14.0.0, 66 aligned runs of
  ten codepoints) is embedded below.  The explicit character classes
  (`[0-5]`, `[1-9]`, …) and literals match ASCII only.
* Floats are modelled as exact rationals (all values involved — gauge
  values, epoch seconds, ages in minutes — are far below the range
  where IEEE-754 doubles drop integer precision).
-/

namespace RallyExporter

/-! ### Association-list gauges (prometheus_client child maps) -/

/-- Set a labeled gauge child: update the existing child in place
(keeping its position in insertion order) or append a new one. -/
def lset {α : Type} [DecidableEq α] : List (α × Rat) → α → Rat → List (α × Rat)
  | [], key, v => [(key, v)]
  | kv :: rest, key, v =>
      if kv.1 = key then (kv.1, v) :: rest else kv :: lset rest key v

/-- Increment a labeled counter child by 1, creating it at 1. -/
def cinc {α : Type} [DecidableEq α] : List (α × Rat) → α → List (α × Rat)
  | [], key => [(key, 1)]
  | kv :: rest, key =>
      if kv.1 = key then (kv.1, kv.2 + 1) :: rest else kv :: cinc rest key

/-- Look a child up by its label tuple. -/
def lget {α : Type} [DecidableEq α] : List (α × Rat) → α → Option Rat
  | [], _ => none
  | kv :: rest, key => if kv.1 = key then some kv.2 else lget rest key

/-- The value of a counter child, 0 when the child does not exist yet. -/
def count_of {α : Type} [DecidableEq α] (g : List (α × Rat)) (key : α) : Rat :=
  (lget g key).getD 0

/-! ### The timestamp parser (`parse_timestamp`, source lines 160-166)

`datetime.strptime(ts, "%Y%m%dT%H%M%SZ")` under CPython `_strptime`. -/

/-- First codepoints of the Unicode 14.0.0 `Nd` (decimal digit) runs:
every decimal digit lies in exactly one run of ten consecutive
codepoints whose digit values are 0..9 in order.  `\d` in a CPython str
regex matches exactly these characters. -/
def ndDigitStarts : List Nat :=
  [48, 1632, 1776, 1984, 2406, 2534, 2662, 2790, 2918, 3046, 3174, 3302,
   3430, 3558, 3664, 3792, 3872, 4160, 4240, 6112, 6160, 6470, 6608, 6784,
   6800, 6992, 7088, 7232, 7248, 42528, 43216, 43264, 43472, 43504, 43600,
   44016, 65296, 66720, 68912, 69734, 69872, 69942, 70096, 70384, 70736,
   70864, 71248, 71360, 71472, 71904, 72016, 72784, 73040, 73120, 92768,
   92864, 93008, 120782, 120792, 120802, 120812, 120822, 123200, 123632,
   125264, 130032]

/-- Decimal value of a Unicode decimal digit, `none` for every other
character (what `\d` matches and `int()` reads per character). -/
def pyDigit (c : Char) : Option Nat :=
  (ndDigitStarts.find? fun b => b ≤ c.toNat && c.toNat ≤ b + 9).map
    fun b => c.toNat - b

/-- Whether `\d` matches the character. -/
def pyIsDigit (c : Char) : Bool := (pyDigit c).isSome

/-- Digit value used by `int()` on a matched group character. -/
def pyval (c : Char) : Nat := (pyDigit c).getD 0

/-- The numeric value of an ASCII digit character (used for the
explicit ASCII character classes of the pattern). -/
def dval (c : Char) : Nat := c.toNat - 48

/-- Two-digit field value under `int()`. -/
def two (a b : Char) : Nat := 10 * pyval a + pyval b

/-- Directive `%Y`: regex `\d\d\d\d`. -/
def reY : List Char → List (Nat × List Char)
  | a :: b :: c :: d :: rest =>
      if pyIsDigit a && pyIsDigit b && pyIsDigit c && pyIsDigit d then
        [(1000 * pyval a + 100 * pyval b + 10 * pyval c + pyval d, rest)]
      else []
  | _ => []

/-- Directive `%m`: regex `1[0-2]|0[1-9]|[1-9]`, alternatives in order. -/
def reMonth (cs : List Char) : List (Nat × List Char) :=
  (match cs with
   | a :: b :: rest =>
       (if a = '1' && b.isDigit && dval b ≤ 2 then [(two a b, rest)] else []) ++
       (if a = '0' && b.isDigit && 1 ≤ dval b then [(two a b, rest)] else [])
   | _ => []) ++
  (match cs with
   | a :: rest => if a.isDigit && 1 ≤ dval a then [(dval a, rest)] else []
   | _ => [])

/-- Directive `%d`: regex `3[0-1]|[1-2]\d|0[1-9]|[1-9]| [1-9]` — the
fifth, space-padded-day alternative is part of every CPython
`_strptime`; `int(" 1")` strips the space.  The one- and two-character
alternatives are disjoint on their first character, so grouping the
space alternative with the other two-character ones preserves the
engine's preference order. -/
def reDay (cs : List Char) : List (Nat × List Char) :=
  (match cs with
   | a :: b :: rest =>
       (if a = '3' && (b = '0' || b = '1') then [(two a b, rest)] else []) ++
       (if (a = '1' || a = '2') && pyIsDigit b then [(two a b, rest)] else []) ++
       (if a = '0' && b.isDigit && 1 ≤ dval b then [(two a b, rest)] else []) ++
       (if a = ' ' && b.isDigit && 1 ≤ dval b then [(pyval b, rest)] else [])
   | _ => []) ++
  (match cs with
   | a :: rest => if a.isDigit && 1 ≤ dval a then [(pyval a, rest)] else []
   | _ => [])

/-- Directive `%H`: regex `2[0-3]|[0-1]\d|\d`. -/
def reHour (cs : List Char) : List (Nat × List Char) :=
  (match cs with
   | a :: b :: rest =>
       (if a = '2' && b.isDigit && dval b ≤ 3 then [(two a b, rest)] else []) ++
       (if (a = '0' || a = '1') && pyIsDigit b then [(two a b, rest)] else [])
   | _ => []) ++
  (match cs with
   | a :: rest => if pyIsDigit a then [(pyval a, rest)] else []
   | _ => [])

/-- Directive `%M`: regex `[0-5]\d|\d`. -/
def reMinute (cs : List Char) : List (Nat × List Char) :=
  (match cs with
   | a :: b :: rest =>
       if a.isDigit && dval a ≤ 5 && pyIsDigit b then [(two a b, rest)] else []
   | _ => []) ++
  (match cs with
   | a :: rest => if pyIsDigit a then [(pyval a, rest)] else []
   | _ => [])

/-- Directive `%S`: regex `6[0-1]|[0-5]\d|\d` (60 and 61 pass the regex
for leap seconds and are rejected later by the datetime constructor). -/
def reSecond (cs : List Char) : List (Nat × List Char) :=
  (match cs with
   | a :: b :: rest =>
       (if a = '6' && (b = '0' || b = '1') then [(two a b, rest)] else []) ++
       (if a.isDigit && dval a ≤ 5 && pyIsDigit b then [(two a b, rest)] else [])
   | _ => []) ++
  (match cs with
   | a :: rest => if pyIsDigit a then [(pyval a, rest)] else []
   | _ => [])

/-- A literal character of the format; `_strptime.TimeRE.compile` passes
`re.IGNORECASE`, so the literal matches both cases. -/
def reLit (c : Char) : List Char → List (List Char)
  | a :: rest => if a.toLower = c.toLower then [rest] else []
  | _ => []

/-- The fields `datetime.strptime` extracts before constructing the
`datetime` object. -/
structure PyDateTime where
  year : Nat
  month : Nat
  day : Nat
  hour : Nat
  minute : Nat
  second : Nat
deriving DecidableEq, Repr

/-- Every match of the compiled format regex against a prefix of the
input, in backtracking preference order; the head is the match
`re.match` returns. -/
def strptimeMatches (cs : List Char) : List (PyDateTime × List Char) :=
  (reY cs).flatMap fun yc =>
  (reMonth yc.2).flatMap fun mc =>
  (reDay mc.2).flatMap fun dc =>
  (reLit 'T' dc.2).flatMap fun cs1 =>
  (reHour cs1).flatMap fun hc =>
  (reMinute hc.2).flatMap fun mic =>
  (reSecond mic.2).flatMap fun sc =>
  (reLit 'Z' sc.2).map fun rest =>
  (⟨yc.1, mc.1, dc.1, hc.1, mic.1, sc.1⟩, rest)

/-- Gregorian leap year, as `calendar.isleap` / `datetime` use it. -/
def isLeapYear (y : Nat) : Bool := y % 4 = 0 && (y % 100 ≠ 0 || y % 400 = 0)

/-- Length of a month. -/
def daysInMonth (y m : Nat) : Nat :=
  if m = 2 then (if isLeapYear y then 29 else 28)
  else if m = 4 || m = 6 || m = 9 || m = 11 then 30
  else 31

/-- The range checks of the `datetime` constructor that the format regex
does not already guarantee (MINYEAR, day-of-month, second below 60). -/
def validDateTime (dt : PyDateTime) : Bool :=
  1 ≤ dt.year && dt.year ≤ 9999 && 1 ≤ dt.month && dt.month ≤ 12 &&
  1 ≤ dt.day && dt.day ≤ daysInMonth dt.year dt.month &&
  dt.hour ≤ 23 && dt.minute ≤ 59 && dt.second ≤ 59

/-- `datetime.strptime(s, "%Y%m%dT%H%M%SZ")`: take the regex match the
engine finds first, require it to span the whole input
(`len(data_string) != found.end()` raises), then validate ranges. -/
def datetime_strptime (s : String) : Option PyDateTime :=
  match strptimeMatches s.data with
  | [] => none
  | (dt, rest) :: _ => if rest = [] && validDateTime dt then some dt else none

/-- Days before the first of a month within a year. -/
def daysBeforeMonth (y m : Nat) : Nat :=
  (List.range (m - 1)).foldl (fun acc i => acc + daysInMonth y (i + 1)) 0

/-- Proleptic-Gregorian ordinal of a date (`date.toordinal`):
day 1 is 0001-01-01. -/
def toordinal (dt : PyDateTime) : Nat :=
  365 * (dt.year - 1) + (dt.year - 1) / 4 - (dt.year - 1) / 100 +
    (dt.year - 1) / 400 + daysBeforeMonth dt.year dt.month + dt.day

/-- Unix epoch seconds of a UTC datetime
(`dt.replace(tzinfo=timezone.utc).timestamp()`); the ordinal of
1970-01-01 is 719163. -/
def py_epoch (dt : PyDateTime) : Int :=
  ((toordinal dt : Int) - 719163) * 86400 +
    (dt.hour : Int) * 3600 + (dt.minute : Int) * 60 + (dt.second : Int)

/-- Source `parse_timestamp`: the epoch seconds of the parsed UTC
datetime, or the sentinel `0.0` when `strptime` raises. -/
def parse_timestamp (ts : String) : Rat :=
  match datetime_strptime ts with
  | some dt => (py_epoch dt : Rat)
  | none => 0

/-! ### The two input documents and the registry -/

/-- One entry of a service's `scenarios` array; each field optional,
mirroring the `scenario.get(...)` defaults of the source. -/
structure ScenarioJson where
  name : Option String := none
  duration : Option Rat := none
  iterations : Option Rat := none
  failures : Option Rat := none
  sla : Option Bool := none
deriving DecidableEq, Repr

/-- One value of the summary's `services` mapping. -/
structure ServiceJson where
  status : Option String := none
  scenarios : Option (List ScenarioJson) := none
deriving DecidableEq, Repr

/-- The `latest_summary.json` document; `services` keeps the JSON
object's insertion order, as Python dicts do. -/
structure SummaryJson where
  timestamp : Option String := none
  run_duration_seconds : Option Rat := none
  services : Option (List (String × ServiceJson)) := none
deriving DecidableEq, Repr

/-- The `cleanup_metrics.json` document. -/
structure CleanupJson where
  cleanup_failed : Option Rat := none
  orphaned_resources : Option (List (String × Rat)) := none
  details : Option (List (String × Rat)) := none
  context_orphaned_resources : Option (List (String × Rat)) := none
  context_details : Option (List (String × Rat)) := none
deriving DecidableEq, Repr

/-- The process-wide metric registry (source lines 36-131): ten labeled
gauges, three unlabeled gauges and the labeled error counter. -/
structure Registry where
  rally_task_success : List ((String × String) × Rat) := []
  rally_task_duration_seconds : List ((String × String) × Rat) := []
  rally_task_iterations_total : List ((String × String) × Rat) := []
  rally_task_failures_total : List ((String × String) × Rat) := []
  rally_task_sla_passed : List ((String × String) × Rat) := []
  rally_service_status : List (String × Rat) := []
  rally_cleanup_failure : List (String × Rat) := []
  rally_orphaned_resources : List ((String × String) × Rat) := []
  rally_context_cleanup_warning : List (String × Rat) := []
  rally_context_orphaned_resources : List ((String × String) × Rat) := []
  rally_last_run_timestamp : Rat := 0
  rally_overall_success : Rat := 0
  rally_run_duration_seconds : Rat := 0
  rally_exporter_errors_total : List (String × Rat) := []
deriving DecidableEq, Repr

/-- The registry as `prometheus_client` creates it: no children, every
unlabeled gauge at 0, the counter empty. -/
def Registry.onStart : Registry := {}

/-- The clear loop of `update_metrics` (source lines 174-186): empty the
child maps of the ten labeled gauges. -/
def clear_labeled (r : Registry) : Registry :=
  { r with
    rally_task_success := []
    rally_task_duration_seconds := []
    rally_task_iterations_total := []
    rally_task_failures_total := []
    rally_task_sla_passed := []
    rally_service_status := []
    rally_cleanup_failure := []
    rally_orphaned_resources := []
    rally_context_cleanup_warning := []
    rally_context_orphaned_resources := [] }

/-! ### Data loading (source lines 137-156) -/

/-- Source `load_latest_summary`: the parsed document, or on
`FileNotFoundError` / `json.JSONDecodeError` (file argument `none`) the
default document plus an error-counter increment. -/
def load_latest_summary (file : Option SummaryJson) (r : Registry) :
    SummaryJson × Registry :=
  match file with
  | some doc => (doc, r)
  | none =>
      ({ timestamp := some "none", services := some [] },
       { r with
           rally_exporter_errors_total := cinc r.rally_exporter_errors_total "latest_summary.json" })

/-- Source `load_cleanup_metrics`: note the default document carries the
extra key `cleanup_failed: 0` (source line 156). -/
def load_cleanup_metrics (file : Option CleanupJson) (r : Registry) :
    CleanupJson × Registry :=
  match file with
  | some doc => (doc, r)
  | none =>
      ({ cleanup_failed := some 0, orphaned_resources := some [],
         details := some [] },
       { r with
           rally_exporter_errors_total := cinc r.rally_exporter_errors_total "cleanup_metrics.json" })

/-! ### Metrics update (source lines 172-287) -/

/-- The fixed resource-type-to-service lookup table
(source lines 245-254), with the `"unknown"` default of
`svc_map.get(resource_type, "unknown")`. -/
def svc_map : String → String
  | "servers" => "nova"
  | "networks" => "neutron"
  | "routers" => "neutron"
  | "security_groups" => "neutron"
  | "volumes" => "cinder"
  | "images" => "glance"
  | "users" => "keystone"
  | "projects" => "keystone"
  | _ => "unknown"

/-- The body of the per-scenario loop (source lines 213-238), threading
the `all_passed` flag and the registry. -/
def scenario_step (service : String) (acc : Bool × Registry)
    (scenario : ScenarioJson) : Bool × Registry :=
  let name := scenario.name.getD "unknown"
  let r := acc.2
  let r := { r with
      rally_task_duration_seconds := lset r.rally_task_duration_seconds (service, name) (scenario.duration.getD 0) }
  let r := { r with
      rally_task_iterations_total := lset r.rally_task_iterations_total (service, name) (scenario.iterations.getD 0) }
  let failures := scenario.failures.getD 0
  let r := { r with
      rally_task_failures_total := lset r.rally_task_failures_total (service, name) failures }
  let passed : Rat := if failures = 0 then 1 else 0
  let r := { r with
      rally_task_success := lset r.rally_task_success (service, name) passed }
  let all_passed := if passed = 0 then false else acc.1
  let sla : Rat := if scenario.sla.getD false then 1 else 0
  let r := { r with
      rally_task_sla_passed := lset r.rally_task_sla_passed (service, name) sla }
  (all_passed, r)

/-- The body of the per-service loop (source lines 201-238): the status
gauge and flag update, then the scenario loop. -/
def service_step (acc : Bool × Registry) (entry : String × ServiceJson) :
    Bool × Registry :=
  let service := entry.1
  let data := entry.2
  let status := data.status.getD "pending"
  let acc1 : Bool × Registry :=
    if status = "passed" then
      (acc.1, { acc.2 with
          rally_service_status := lset acc.2.rally_service_status service 1 })
    else if status = "failed" then
      (false, { acc.2 with
          rally_service_status := lset acc.2.rally_service_status service 0 })
    else
      (acc.1, { acc.2 with
          rally_service_status := lset acc.2.rally_service_status service (-1) })
  (data.scenarios.getD []).foldl (scenario_step service) acc1

/-- Body of the `orphaned_resources` loop (source lines 258-264). -/
def orphaned_step (r : Registry) (entry : String × Rat) : Registry :=
  let r := { r with
      rally_cleanup_failure := lset r.rally_cleanup_failure entry.1 (if 0 < entry.2 then 1 else 0) }
  { r with
      rally_orphaned_resources := lset r.rally_orphaned_resources (entry.1, "total") entry.2 }

/-- Body of the `details` loop (source lines 266-270). -/
def details_step (r : Registry) (entry : String × Rat) : Registry :=
  { r with
      rally_orphaned_resources := lset r.rally_orphaned_resources (svc_map entry.1, entry.1) entry.2 }

/-- Body of the `context_orphaned_resources` loop (source lines 274-280). -/
def context_orphaned_step (r : Registry) (entry : String × Rat) : Registry :=
  let r := { r with
      rally_context_cleanup_warning := lset r.rally_context_cleanup_warning entry.1 (if 0 < entry.2 then 1 else 0) }
  { r with
      rally_context_orphaned_resources := lset r.rally_context_orphaned_resources (entry.1, "total") entry.2 }

/-- Body of the `context_details` loop (source lines 282-286). -/
def context_details_step (r : Registry) (entry : String × Rat) : Registry :=
  { r with
      rally_context_orphaned_resources := lset r.rally_context_orphaned_resources (svc_map entry.1, entry.1) entry.2 }

/-- Source `update_metrics` (lines 172-287), one scrape: clear the ten
labeled gauges, load the two documents, set the last-run timestamp if
positive, walk the services and scenarios tracking `all_passed`, set
`overall_success`, conditionally set the run duration, then walk the
four cleanup maps. -/
def update_metrics (summary_file : Option SummaryJson)
    (cleanup_file : Option CleanupJson) (r0 : Registry) : Registry :=
  let r1 := clear_labeled r0
  let ls := load_latest_summary summary_file r1
  let summary := ls.1
  let lc := load_cleanup_metrics cleanup_file ls.2
  let cleanup := lc.1
  let r2 := lc.2
  let ts := parse_timestamp (summary.timestamp.getD "")
  let r3 := if 0 < ts then { r2 with rally_last_run_timestamp := ts } else r2
  let sf := (summary.services.getD []).foldl service_step (true, r3)
  let r4 := { sf.2 with rally_overall_success := if sf.1 then 1 else 0 }
  let run_duration := summary.run_duration_seconds.getD 0
  let r5 :=
    if 0 < run_duration then
      { r4 with rally_run_duration_seconds := run_duration }
    else r4
  let r6 := (cleanup.orphaned_resources.getD []).foldl orphaned_step r5
  let r7 := (cleanup.details.getD []).foldl details_step r6
  let r8 := (cleanup.context_orphaned_resources.getD []).foldl context_orphaned_step r7
  (cleanup.context_details.getD []).foldl context_details_step r8

/-! ### The `/ready` endpoint (source lines 308-346) -/

/-- Python banker's rounding (`round` on ties to even), on exact
rationals. -/
def py_round_half_even (x : Rat) : Int :=
  let f := ⌊x⌋
  let frac := x - f
  if frac < 1 / 2 then f
  else if 1 / 2 < frac then f + 1
  else if f % 2 = 0 then f else f + 1

/-- Python `round(x, 2)`. -/
def py_round2 (x : Rat) : Rat := (py_round_half_even (x * 100) : Rat) / 100

/-- What the `/ready` handler responds: status code and the JSON body
fields (absent fields as `none`). -/
structure ReadyResponse where
  status_code : Nat
  ready : Bool
  reasons : List String
  timestamp : Option String
  age_minutes : Option Rat
deriving DecidableEq, Repr

/-- Source `ready` (lines 308-346): `now` is the current UTC epoch
seconds and `max_age_minutes` the `READY_MAX_AGE_MINUTES` setting.
Returns the response together with the registry as the load left it. -/
def ready (now : Rat) (max_age_minutes : Int)
    (summary_file : Option SummaryJson) (r : Registry) :
    ReadyResponse × Registry :=
  let ls := load_latest_summary summary_file r
  let summary := ls.1
  let r := ls.2
  let timestamp := summary.timestamp.getD ""
  let first :=
    if timestamp = "waiting_for_first_run" || timestamp = "none" ||
        timestamp = "" then
      (["timestamp_missing"], (none : Option Rat))
    else
      match datetime_strptime timestamp with
      | some dt =>
          let age_seconds := now - (py_epoch dt : Rat)
          let age_minutes := age_seconds / 60
          if (max_age_minutes : Rat) * 60 ≤ age_seconds then
            (["timestamp_too_old"], some age_minutes)
          else ([], some age_minutes)
      | none => (["timestamp_invalid"], (none : Option Rat))
  let reasons :=
    if (summary.services.getD []).all
        (fun e => e.2.status.getD "pending" = "pending") then
      first.1 ++ ["all_services_pending"]
    else first.1
  if reasons = [] then
    (⟨200, true, [], some timestamp, first.2.map py_round2⟩, r)
  else
    (⟨503, false, reasons, none, none⟩, r)

/-! ### Derived forms used to state and prove the properties

The definitions below are not part of the source translation: they are
the pure normal form a scrape provably computes (`update_metrics_eq`). -/

/-- The document `load_latest_summary` hands to its caller. -/
def loaded_summary : Option SummaryJson → SummaryJson
  | some doc => doc
  | none => { timestamp := some "none", services := some [] }

/-- The document `load_cleanup_metrics` hands to its caller. -/
def loaded_cleanup : Option CleanupJson → CleanupJson
  | some doc => doc
  | none =>
      { cleanup_failed := some 0, orphaned_resources := some [],
        details := some [] }

/-- Error-counter effect of loading the summary file. -/
def summary_err : Option SummaryJson → List (String × Rat) → List (String × Rat)
  | some _, g => g
  | none, g => cinc g "latest_summary.json"

/-- Error-counter effect of loading the cleanup file. -/
def cleanup_err : Option CleanupJson → List (String × Rat) → List (String × Rat)
  | some _, g => g
  | none, g => cinc g "cleanup_metrics.json"

/-- Apply a list of labeled writes to a gauge, in order. -/
def applyW {α : Type} [DecidableEq α] (g : List (α × Rat)) (ws : List (α × Rat)) :
    List (α × Rat) :=
  ws.foldl (fun g w => lset g w.1 w.2) g

/-- The value `rally_service_status` gets for a service entry. -/
def status_val (data : ServiceJson) : Rat :=
  let status := data.status.getD "pending"
  if status = "passed" then 1 else if status = "failed" then 0 else -1

/-- Value written to `rally_task_success` for a scenario. -/
def success_of (sc : ScenarioJson) : Rat := if sc.failures.getD 0 = 0 then 1 else 0

/-- Value written to `rally_task_duration_seconds` for a scenario. -/
def duration_of (sc : ScenarioJson) : Rat := sc.duration.getD 0

/-- Value written to `rally_task_iterations_total` for a scenario. -/
def iterations_of (sc : ScenarioJson) : Rat := sc.iterations.getD 0

/-- Value written to `rally_task_failures_total` for a scenario. -/
def failures_of (sc : ScenarioJson) : Rat := sc.failures.getD 0

/-- Value written to `rally_task_sla_passed` for a scenario. -/
def sla_of (sc : ScenarioJson) : Rat := if sc.sla.getD false then 1 else 0

/-- The `(service, scenario)`-labeled writes one service's scenario loop
emits for one task gauge. -/
def scenario_writes (service : String) (f : ScenarioJson → Rat)
    (l : List ScenarioJson) : List ((String × String) × Rat) :=
  l.map fun sc => ((service, sc.name.getD "unknown"), f sc)

/-- All writes the service loop emits for one task gauge. -/
def service_writes (f : ScenarioJson → Rat)
    (l : List (String × ServiceJson)) : List ((String × String) × Rat) :=
  l.flatMap fun e => scenario_writes e.1 f (e.2.scenarios.getD [])

/-- Effect of one scenario on the `all_passed` flag. -/
def scenario_flag (b : Bool) (sc : ScenarioJson) : Bool :=
  if (if sc.failures.getD 0 = 0 then (1 : Rat) else 0) = 0 then false else b

/-- Effect of one service entry (status plus its scenarios) on the
`all_passed` flag. -/
def service_flag (b : Bool) (e : String × ServiceJson) : Bool :=
  let status := e.2.status.getD "pending"
  let b1 := if status = "passed" then b else if status = "failed" then false else b
  (e.2.scenarios.getD []).foldl scenario_flag b1

/-- The registry one scrape provably produces (`update_metrics_eq`):
every labeled gauge is rebuilt from the loaded documents alone, the
three unlabeled gauges keep their conditional behaviour, and the error
counter records the load failures. -/
def scrape_result (sf : Option SummaryJson) (cf : Option CleanupJson)
    (r : Registry) : Registry :=
  let summary := loaded_summary sf
  let cleanup := loaded_cleanup cf
  let S := summary.services.getD []
  let O := cleanup.orphaned_resources.getD []
  let D := cleanup.details.getD []
  let CO := cleanup.context_orphaned_resources.getD []
  let CD := cleanup.context_details.getD []
  let ts := parse_timestamp (summary.timestamp.getD "")
  let rd := summary.run_duration_seconds.getD 0
  { rally_task_success := applyW [] (service_writes success_of S)
    rally_task_duration_seconds := applyW [] (service_writes duration_of S)
    rally_task_iterations_total := applyW [] (service_writes iterations_of S)
    rally_task_failures_total := applyW [] (service_writes failures_of S)
    rally_task_sla_passed := applyW [] (service_writes sla_of S)
    rally_service_status := applyW [] (S.map fun e => (e.1, status_val e.2))
    rally_cleanup_failure :=
      applyW [] (O.map fun e => (e.1, if 0 < e.2 then 1 else 0))
    rally_orphaned_resources :=
      applyW (applyW [] (O.map fun e => ((e.1, "total"), e.2)))
        (D.map fun e => ((svc_map e.1, e.1), e.2))
    rally_context_cleanup_warning :=
      applyW [] (CO.map fun e => (e.1, if 0 < e.2 then 1 else 0))
    rally_context_orphaned_resources :=
      applyW (applyW [] (CO.map fun e => ((e.1, "total"), e.2)))
        (CD.map fun e => ((svc_map e.1, e.1), e.2))
    rally_last_run_timestamp := if 0 < ts then ts else r.rally_last_run_timestamp
    rally_overall_success := if S.foldl service_flag true then 1 else 0
    rally_run_duration_seconds :=
      if 0 < rd then rd else r.rally_run_duration_seconds
    rally_exporter_errors_total :=
      cleanup_err cf (summary_err sf r.rally_exporter_errors_total) }

/-- Label tuples a gauge currently exposes. -/
def gkeys {α : Type} (g : List (α × Rat)) : List α := g.map Prod.fst

/-- No per-entity gauge of the registry carries `svc` in its `service`
label position. -/
def no_service_label (svc : String) (r : Registry) : Prop :=
  (∀ k ∈ gkeys r.rally_task_success, k.1 ≠ svc) ∧
  (∀ k ∈ gkeys r.rally_task_duration_seconds, k.1 ≠ svc) ∧
  (∀ k ∈ gkeys r.rally_task_iterations_total, k.1 ≠ svc) ∧
  (∀ k ∈ gkeys r.rally_task_failures_total, k.1 ≠ svc) ∧
  (∀ k ∈ gkeys r.rally_task_sla_passed, k.1 ≠ svc) ∧
  (∀ k ∈ gkeys r.rally_service_status, k ≠ svc) ∧
  (∀ k ∈ gkeys r.rally_cleanup_failure, k ≠ svc) ∧
  (∀ k ∈ gkeys r.rally_orphaned_resources, k.1 ≠ svc) ∧
  (∀ k ∈ gkeys r.rally_context_cleanup_warning, k ≠ svc) ∧
  (∀ k ∈ gkeys r.rally_context_orphaned_resources, k.1 ≠ svc)

/-- No task gauge of the registry carries `scen` in its `scenario`
label position. -/
def no_scenario_label (scen : String) (r : Registry) : Prop :=
  (∀ k ∈ gkeys r.rally_task_success, k.2 ≠ scen) ∧
  (∀ k ∈ gkeys r.rally_task_duration_seconds, k.2 ≠ scen) ∧
  (∀ k ∈ gkeys r.rally_task_iterations_total, k.2 ≠ scen) ∧
  (∀ k ∈ gkeys r.rally_task_failures_total, k.2 ≠ scen) ∧
  (∀ k ∈ gkeys r.rally_task_sla_passed, k.2 ≠ scen)

/-- Modelled from the spec: the default cleanup document §4.1 and the
claim describe, namely exactly `{orphaned_resources: {}, details: {}}`
with no other key. -/
def spec_cleanup_default : CleanupJson :=
  { orphaned_resources := some [], details := some [] }

/-- Modelled from the spec: a string exactly matching the pattern
`YYYYMMDDTHHMMSSZ` — eight digits, a capital T, six digits, a capital
Z. -/
def spec_exact_pattern (s : String) : Bool :=
  match s.data with
  | [a, b, c, d, e, f, g, h, t, i, j, k, l, m, n, z] =>
      a.isDigit && b.isDigit && c.isDigit && d.isDigit && e.isDigit &&
      f.isDigit && g.isDigit && h.isDigit && t = 'T' && i.isDigit &&
      j.isDigit && k.isDigit && l.isDigit && m.isDigit && n.isDigit && z = 'Z'
  | _ => false

/-- A summary still waiting for its first run (used as a concrete
readiness input). -/
def waiting_doc : SummaryJson := { timestamp := some "waiting_for_first_run" }

/-- A fresh, passed summary (used as a concrete readiness input). -/
def fresh_doc : SummaryJson :=
  { timestamp := some "20240102T030405Z",
    services := some [("nova", { status := some "passed" })] }

/-- A passed summary whose timestamp uses the space-padded-day form
`strptime` accepts (`" [1-9]"` alternative of `%d`). -/
def spaceday_doc : SummaryJson :=
  { timestamp := some "202412 1T030405Z",
    services := some [("nova", { status := some "passed" })] }

/-- A failing scenario named `"x"`. -/
def dup_sc1 : ScenarioJson := { name := some "x", failures := some 1 }

/-- A passing scenario named `"x"`. -/
def dup_sc2 : ScenarioJson := { name := some "x", failures := some 0 }

/-- A service holding two scenarios that share the name `"x"`, the
first failing and the second passing. -/
def dup_svc : ServiceJson :=
  { status := some "passed", scenarios := some [dup_sc1, dup_sc2] }

/-- A summary whose one service holds two scenarios that share a
name. -/
def dup_name_doc : SummaryJson := { services := some [("svc", dup_svc)] }

/-- A scenario named `"a"` with two failures. -/
def two_fail_sc : ScenarioJson := { name := some "a", failures := some 2 }

/-- A service holding only `two_fail_sc`. -/
def two_fail_svc : ServiceJson :=
  { status := some "passed", scenarios := some [two_fail_sc] }

/-- A summary whose one service holds only `two_fail_sc`. -/
def two_fail_doc : SummaryJson := { services := some [("svc", two_fail_svc)] }

/-- Second-scrape inputs that mention neither the service `"gone"` nor
the scenario `"oldscen"`. -/
def second_sum : SummaryJson :=
  { services := some [("nova",
      { status := some "passed",
        scenarios := some [{ name := some "boot", failures := some 0 }] })] }

/-- Cleanup counterpart of `second_sum`. -/
def second_cleanup : CleanupJson :=
  { orphaned_resources := some [("nova", 1)],
    details := some [("servers", 1)],
    context_orphaned_resources := some [("glance", 0)],
    context_details := some [("images", 3)] }

/-- First-scrape input that does mention the service `"gone"` and the
scenario `"oldscen"`. -/
def first_sum : SummaryJson :=
  { services := some [("gone",
      { status := some "failed",
        scenarios := some [{ name := some "oldscen", failures := some 1 }] })] }

/-! ### Basic lemmas about the gauge child maps -/

theorem applyW_append {α : Type} [DecidableEq α] (g w1 w2 : List (α × Rat)) :
    applyW g (w1 ++ w2) = applyW (applyW g w1) w2 := by
  simp [applyW, List.foldl_append]

theorem lget_lset_self {α : Type} [DecidableEq α] (g : List (α × Rat))
    (k : α) (v : Rat) : lget (lset g k v) k = some v := by
  induction g with
  | nil => simp [lset, lget]
  | cons kv rest ih =>
      by_cases h : kv.1 = k <;> simp [lset, lget, h, ih]

theorem lget_lset_ne {α : Type} [DecidableEq α] (g : List (α × Rat))
    (k : α) (v : Rat) (k2 : α) (h : k2 ≠ k) :
    lget (lset g k v) k2 = lget g k2 := by
  induction g with
  | nil => simp [lset, lget, Ne.symm h]
  | cons kv rest ih =>
      by_cases h1 : kv.1 = k
      · simp [lset, lget, h1, Ne.symm h]
      · simp [lset, lget, h1, ih]

theorem mem_gkeys_lset {α : Type} [DecidableEq α] (g : List (α × Rat))
    (k : α) (v : Rat) (k2 : α) (h : k2 ∈ gkeys (lset g k v)) :
    k2 ∈ gkeys g ∨ k2 = k := by
  induction g with
  | nil => simpa [lset, gkeys] using h
  | cons kv rest ih =>
      by_cases h1 : kv.1 = k
      · simp only [lset, if_pos h1] at h
        rcases (by simpa [gkeys] using h) with h2 | h2
        · exact Or.inr (h2.trans h1)
        · exact Or.inl (by simp [gkeys, h2])
      · simp only [lset, if_neg h1] at h
        rcases (by simpa [gkeys] using h) with h2 | h2
        · exact Or.inl (by simp [gkeys, h2])
        · rcases ih (by simpa [gkeys] using h2) with h3 | h3
          · exact Or.inl (by simp [gkeys]; right; simpa [gkeys] using h3)
          · exact Or.inr h3

theorem mem_gkeys_applyW {α : Type} [DecidableEq α] (ws g : List (α × Rat))
    (k : α) (h : k ∈ gkeys (applyW g ws)) :
    k ∈ gkeys g ∨ k ∈ ws.map Prod.fst := by
  induction ws generalizing g with
  | nil => exact Or.inl h
  | cons w rest ih =>
      rcases ih (lset g w.1 w.2) h with h1 | h1
      · rcases mem_gkeys_lset g w.1 w.2 k h1 with h2 | h2
        · exact Or.inl h2
        · exact Or.inr (by simp [h2])
      · exact Or.inr (by simp; right; simpa using h1)

theorem lget_applyW_of_not_written {α : Type} [DecidableEq α]
    (ws g : List (α × Rat)) (k : α) (h : ∀ w ∈ ws, w.1 ≠ k) :
    lget (applyW g ws) k = lget g k := by
  induction ws generalizing g with
  | nil => rfl
  | cons w rest ih =>
      have h1 : k ≠ w.1 := fun hh => h w (by simp) hh.symm
      rw [show applyW g (w :: rest) = applyW (lset g w.1 w.2) rest from rfl,
        ih (lset g w.1 w.2) (fun x hx => h x (by simp [hx])),
        lget_lset_ne g w.1 w.2 k h1]

theorem lget_applyW_last {α : Type} [DecidableEq α] (g ws1 ws2 : List (α × Rat))
    (k : α) (v : Rat) (h : ∀ w ∈ ws2, w.1 ≠ k) :
    lget (applyW g (ws1 ++ (k, v) :: ws2)) k = some v := by
  rw [applyW_append, show applyW (applyW g ws1) ((k, v) :: ws2) =
      applyW (lset (applyW g ws1) k v) ws2 from rfl,
    lget_applyW_of_not_written ws2 _ k h, lget_lset_self]

theorem count_of_cinc_self {α : Type} [DecidableEq α] (g : List (α × Rat))
    (k : α) : count_of (cinc g k) k = count_of g k + 1 := by
  induction g with
  | nil => simp [cinc, count_of, lget]
  | cons kv rest ih =>
      by_cases h : kv.1 = k <;> simp [cinc, count_of, lget, h] at ih ⊢
      exact ih

theorem count_of_cinc_ne {α : Type} [DecidableEq α] (g : List (α × Rat))
    (k k2 : α) (h : k2 ≠ k) : count_of (cinc g k) k2 = count_of g k2 := by
  induction g with
  | nil => simp [cinc, count_of, lget, Ne.symm h]
  | cons kv rest ih =>
      by_cases h1 : kv.1 = k
      · simp [cinc, count_of, lget, h1, Ne.symm h]
      · simp [cinc, count_of, lget, h1] at ih ⊢
        by_cases h2 : kv.1 = k2 <;> simp [h2, ih]

theorem count_of_le_cinc {α : Type} [DecidableEq α] (g : List (α × Rat))
    (k k2 : α) : count_of g k2 ≤ count_of (cinc g k) k2 := by
  by_cases h : k2 = k
  · subst h
    rw [count_of_cinc_self]
    linarith
  · rw [count_of_cinc_ne g k k2 h]

/-! ### Factoring the scrape into pure per-field folds -/

theorem scenario_foldl_eq (svc : String) (l : List ScenarioJson) (b : Bool)
    (r : Registry) :
    l.foldl (scenario_step svc) (b, r) =
    (l.foldl scenario_flag b,
     { r with
       rally_task_success :=
         applyW r.rally_task_success (scenario_writes svc success_of l)
       rally_task_duration_seconds :=
         applyW r.rally_task_duration_seconds (scenario_writes svc duration_of l)
       rally_task_iterations_total :=
         applyW r.rally_task_iterations_total (scenario_writes svc iterations_of l)
       rally_task_failures_total :=
         applyW r.rally_task_failures_total (scenario_writes svc failures_of l)
       rally_task_sla_passed :=
         applyW r.rally_task_sla_passed (scenario_writes svc sla_of l) }) := by
  induction l generalizing b r with
  | nil => rfl
  | cons sc rest ih =>
      simp only [List.foldl_cons, scenario_step]
      rw [ih]
      simp [scenario_flag, scenario_writes, applyW, success_of, duration_of,
        iterations_of, failures_of, sla_of]

theorem service_foldl_eq (l : List (String × ServiceJson)) (b : Bool)
    (r : Registry) :
    l.foldl service_step (b, r) =
    (l.foldl service_flag b,
     { r with
       rally_service_status :=
         applyW r.rally_service_status (l.map fun e => (e.1, status_val e.2))
       rally_task_success :=
         applyW r.rally_task_success (service_writes success_of l)
       rally_task_duration_seconds :=
         applyW r.rally_task_duration_seconds (service_writes duration_of l)
       rally_task_iterations_total :=
         applyW r.rally_task_iterations_total (service_writes iterations_of l)
       rally_task_failures_total :=
         applyW r.rally_task_failures_total (service_writes failures_of l)
       rally_task_sla_passed :=
         applyW r.rally_task_sla_passed (service_writes sla_of l) }) := by
  induction l generalizing b r with
  | nil => rfl
  | cons e rest ih =>
      simp only [List.foldl_cons, service_step]
      by_cases h1 : e.2.status.getD "pending" = "passed"
      · simp only [h1, if_pos, if_true, reduceIte]
        rw [scenario_foldl_eq, ih]
        simp [service_flag, service_writes, status_val, h1, applyW_append,
          applyW, List.flatMap_cons]
      · by_cases h2 : e.2.status.getD "pending" = "failed"
        · simp only [h1, h2, reduceIte]
          rw [scenario_foldl_eq, ih]
          simp [service_flag, service_writes, status_val, h1, h2, applyW_append,
            applyW, List.flatMap_cons]
        · simp only [h1, h2, reduceIte]
          rw [scenario_foldl_eq, ih]
          simp [service_flag, service_writes, status_val, h1, h2, applyW_append,
            applyW, List.flatMap_cons]

theorem orphaned_foldl_eq (l : List (String × Rat)) (r : Registry) :
    l.foldl orphaned_step r =
    { r with
      rally_cleanup_failure :=
        applyW r.rally_cleanup_failure
          (l.map fun e => (e.1, if 0 < e.2 then 1 else 0))
      rally_orphaned_resources :=
        applyW r.rally_orphaned_resources
          (l.map fun e => ((e.1, "total"), e.2)) } := by
  induction l generalizing r with
  | nil => rfl
  | cons e rest ih =>
      simp only [List.foldl_cons, orphaned_step]
      rw [ih]
      simp [applyW]

theorem details_foldl_eq (l : List (String × Rat)) (r : Registry) :
    l.foldl details_step r =
    { r with
      rally_orphaned_resources :=
        applyW r.rally_orphaned_resources
          (l.map fun e => ((svc_map e.1, e.1), e.2)) } := by
  induction l generalizing r with
  | nil => rfl
  | cons e rest ih =>
      simp only [List.foldl_cons, details_step]
      rw [ih]
      simp [applyW]

theorem context_orphaned_foldl_eq (l : List (String × Rat)) (r : Registry) :
    l.foldl context_orphaned_step r =
    { r with
      rally_context_cleanup_warning :=
        applyW r.rally_context_cleanup_warning
          (l.map fun e => (e.1, if 0 < e.2 then 1 else 0))
      rally_context_orphaned_resources :=
        applyW r.rally_context_orphaned_resources
          (l.map fun e => ((e.1, "total"), e.2)) } := by
  induction l generalizing r with
  | nil => rfl
  | cons e rest ih =>
      simp only [List.foldl_cons, context_orphaned_step]
      rw [ih]
      simp [applyW]

theorem context_details_foldl_eq (l : List (String × Rat)) (r : Registry) :
    l.foldl context_details_step r =
    { r with
      rally_context_orphaned_resources :=
        applyW r.rally_context_orphaned_resources
          (l.map fun e => ((svc_map e.1, e.1), e.2)) } := by
  induction l generalizing r with
  | nil => rfl
  | cons e rest ih =>
      simp only [List.foldl_cons, context_details_step]
      rw [ih]
      simp [applyW]

set_option maxRecDepth 8000 in
/-- One scrape computes exactly the pure normal form `scrape_result`. -/
theorem update_metrics_eq (sf : Option SummaryJson) (cf : Option CleanupJson)
    (r : Registry) : update_metrics sf cf r = scrape_result sf cf r := by
  cases sf <;> cases cf <;>
  · simp only [update_metrics, load_latest_summary, load_cleanup_metrics,
      clear_labeled]
    rw [service_foldl_eq]
    rw [orphaned_foldl_eq, details_foldl_eq, context_orphaned_foldl_eq,
      context_details_foldl_eq]
    simp only [scrape_result, loaded_summary, loaded_cleanup, summary_err,
      cleanup_err]
    split_ifs <;> rfl

theorem load_latest_summary_fst (sf : Option SummaryJson) (r : Registry) :
    (load_latest_summary sf r).1 = loaded_summary sf := by
  cases sf <;> rfl

theorem load_cleanup_metrics_fst (cf : Option CleanupJson) (r : Registry) :
    (load_cleanup_metrics cf r).1 = loaded_cleanup cf := by
  cases cf <;> rfl

/-! ### The `all_passed` flag as a pure predicate -/

theorem scenario_flag_foldl (l : List ScenarioJson) (b : Bool) :
    l.foldl scenario_flag b =
    (b && l.all fun sc => decide (sc.failures.getD 0 = 0)) := by
  induction l generalizing b with
  | nil => simp
  | cons sc rest ih =>
      have hstep : scenario_flag b sc = (b && decide (sc.failures.getD 0 = 0)) := by
        by_cases h : sc.failures.getD 0 = 0 <;> simp [scenario_flag, h]
      simp only [List.foldl_cons, List.all_cons, ih, hstep, Bool.and_assoc]

theorem service_flag_foldl (l : List (String × ServiceJson)) (b : Bool) :
    l.foldl service_flag b =
    (b && l.all fun e =>
      (!decide (e.2.status.getD "pending" = "failed")) &&
      (e.2.scenarios.getD []).all fun sc => decide (sc.failures.getD 0 = 0)) := by
  induction l generalizing b with
  | nil => simp
  | cons e rest ih =>
      have hstep : service_flag b e =
          (b && ((!decide (e.2.status.getD "pending" = "failed")) &&
            (e.2.scenarios.getD []).all fun sc =>
              decide (sc.failures.getD 0 = 0))) := by
        simp only [service_flag, scenario_flag_foldl]
        by_cases h1 : e.2.status.getD "pending" = "passed"
        · simp [h1]
        · by_cases h2 : e.2.status.getD "pending" = "failed" <;> simp [h1, h2]
      simp only [List.foldl_cons, List.all_cons, ih, hstep, Bool.and_assoc]

/-! ### The claims -/

/-- C1 (amended).  After a `/metrics` scrape, `rally_overall_success` is
1 if and only if no service of the loaded summary has status `"failed"`
and every scenario of every service has `failures == 0`; otherwise it is
0.  (The original claim required every status to equal `"passed"`; a
`"pending"`/other status leaves `all_passed` untouched in the source, see
the counterexample.) -/
theorem overall_success_iff_no_failures (sum : SummaryJson) (cl : CleanupJson)
    (r : Registry) :
    ((update_metrics (some sum) (some cl) r).rally_overall_success = 1 ↔
     (∀ e ∈ sum.services.getD ([] : List (String × ServiceJson)),
       e.2.status.getD "pending" ≠ "failed" ∧
       ∀ sc ∈ e.2.scenarios.getD ([] : List ScenarioJson),
         sc.failures.getD 0 = 0)) ∧
    ((update_metrics (some sum) (some cl) r).rally_overall_success = 1 ∨
     (update_metrics (some sum) (some cl) r).rally_overall_success = 0) := by
  refine ⟨?_, ?_⟩
  case refine_2 =>
    rw [update_metrics_eq]
    simp only [scrape_result]
    split_ifs <;> simp
  rw [update_metrics_eq]
  simp only [scrape_result, loaded_summary]
  simp only [service_flag_foldl, Bool.true_and]
  by_cases h : ((sum.services.getD []).all fun e =>
      (!decide (e.2.status.getD "pending" = "failed")) &&
      (e.2.scenarios.getD []).all fun sc => decide (sc.failures.getD 0 = 0)) = true
  · simp only [h, Bool.and_true, if_true, reduceIte, true_iff]
    intro e he
    have h2 := (List.all_eq_true.mp h) e he
    simp only [Bool.and_eq_true, Bool.not_eq_eq_eq_not, Bool.not_true,
      decide_eq_false_iff_not, List.all_eq_true, decide_eq_true_eq] at h2
    exact ⟨h2.1, h2.2⟩
  · have h3 : ¬ (∀ e ∈ sum.services.getD ([] : List (String × ServiceJson)),
        e.2.status.getD "pending" ≠ "failed" ∧
        ∀ sc ∈ e.2.scenarios.getD ([] : List ScenarioJson),
          sc.failures.getD 0 = 0) := by
      intro hc
      apply h
      rw [List.all_eq_true]
      intro e he
      rcases hc e he with ⟨ha, hb⟩
      simp only [Bool.and_eq_true, Bool.not_eq_eq_eq_not, Bool.not_true,
        decide_eq_false_iff_not, List.all_eq_true, decide_eq_true_eq]
      exact ⟨ha, hb⟩
    simp only [h, Bool.and_false, if_false, reduceIte, h3, iff_false]
    norm_num

/-- C1 counterexample.  A summary with one service of status
`"pending"` and no scenarios: the scrape sets `rally_overall_success`
to 1, yet not every service status is `"passed"`, so the claimed
biconditional is false at this input. -/
theorem overall_success_claim_cex :
    ¬ ((update_metrics
        (some { services := some [("nova", { status := some "pending", scenarios := some [] })] })
        (some {}) Registry.onStart).rally_overall_success = 1 ↔
      (∀ e ∈ [("nova",
          ({ status := some "pending", scenarios := some [] } : ServiceJson))],
        e.2.status.getD "pending" = "passed" ∧
        ∀ sc ∈ e.2.scenarios.getD ([] : List ScenarioJson),
          sc.failures.getD 0 = 0)) := by
  decide

/-- C10.  Whenever the loaded summary's services mapping is empty — in
particular for the default document substituted when
`latest_summary.json` is missing or corrupt — the scrape sets
`rally_overall_success` to 1. -/
theorem empty_services_overall_success (sf : Option SummaryJson)
    (cf : Option CleanupJson) (r : Registry)
    (h : (loaded_summary sf).services.getD [] = []) :
    (update_metrics sf cf r).rally_overall_success = 1 := by
  rw [update_metrics_eq]
  simp only [scrape_result]
  rw [h]
  simp

/-- C10 witness: the missing-file default document itself. -/
theorem empty_services_overall_success_witness :
    (update_metrics none (some {}) Registry.onStart).rally_overall_success = 1 :=
  empty_services_overall_success none (some {}) Registry.onStart (by decide)

/-- C8.  The unlabeled `rally_run_duration_seconds` gauge is written
only when the loaded summary's `run_duration_seconds` (default 0) is
strictly positive; otherwise the scrape leaves the previous value in
place. -/
theorem run_duration_frame (sf : Option SummaryJson) (cf : Option CleanupJson)
    (r : Registry) :
    (¬ 0 < (loaded_summary sf).run_duration_seconds.getD 0 →
      (update_metrics sf cf r).rally_run_duration_seconds =
        r.rally_run_duration_seconds) ∧
    (0 < (loaded_summary sf).run_duration_seconds.getD 0 →
      (update_metrics sf cf r).rally_run_duration_seconds =
        (loaded_summary sf).run_duration_seconds.getD 0) := by
  constructor <;> intro h <;> rw [update_metrics_eq] <;>
    simp [scrape_result, h]

/-- C8 witness: a summary without `run_duration_seconds` retains a
previously set value 7, and one with value 9 overwrites it. -/
theorem run_duration_frame_witness :
    (update_metrics (some {}) (some {})
      { rally_run_duration_seconds := 7 }).rally_run_duration_seconds = 7 ∧
    (update_metrics (some { run_duration_seconds := some 9 }) (some {})
      { rally_run_duration_seconds := 7 }).rally_run_duration_seconds = 9 :=
  ⟨(run_duration_frame (some {}) (some {})
      { rally_run_duration_seconds := 7 }).1 (by decide),
   (run_duration_frame (some { run_duration_seconds := some 9 }) (some {})
      { rally_run_duration_seconds := 7 }).2 (by decide)⟩

/-- C3 (amended).  On a missing or malformed file the loaders return
their hard-coded default documents — `{timestamp: "none", services: {}}`
for the summary, and `{cleanup_failed: 0, orphaned_resources: {},
details: {}}` for the cleanup report (the source default carries the
extra key `cleanup_failed: 0`) — and each load increments the error
counter labeled with that file's name by exactly 1.  Both loaders are
total functions of the file contents: no exception escapes. -/
theorem load_defaults (r : Registry) :
    (load_latest_summary none r).1 =
      { timestamp := some "none", services := some [] } ∧
    (load_cleanup_metrics none r).1 =
      { cleanup_failed := some 0, orphaned_resources := some [],
        details := some [] } ∧
    count_of (load_latest_summary none r).2.rally_exporter_errors_total
        "latest_summary.json" =
      count_of r.rally_exporter_errors_total "latest_summary.json" + 1 ∧
    count_of (load_cleanup_metrics none r).2.rally_exporter_errors_total
        "cleanup_metrics.json" =
      count_of r.rally_exporter_errors_total "cleanup_metrics.json" + 1 := by
  refine ⟨rfl, rfl, ?_, ?_⟩ <;>
    simp [load_latest_summary, load_cleanup_metrics, count_of_cinc_self]

/-- C3 counterexample.  The cleanup default the source actually returns
is not `{orphaned_resources: {}, details: {}}`: it carries the extra key
`cleanup_failed: 0`. -/
theorem cleanup_default_cex :
    (load_cleanup_metrics none Registry.onStart).1 ≠ spec_cleanup_default := by
  decide

/-- C4 (amended).  `parse_timestamp` maps `"20240102T030405Z"` to the
epoch value 1704164645 of 2024-01-02T03:04:05 UTC, and returns the
no-value sentinel 0 for `"garbage"` and for the empty string; whenever
the result is not positive — in particular for every input `strptime`
rejects — the scrape leaves `rally_last_run_timestamp` unchanged.  (The
original universal "every input that does not exactly match
YYYYMMDDTHHMMSSZ returns no value" is false: `strptime` literals are
case-insensitive, its fields accept 1-2 digits, `%d` also accepts a
space-padded day, and `\d` accepts any Unicode decimal digit; see the
counterexample.) -/
theorem parse_timestamp_spec :
    parse_timestamp "20240102T030405Z" = 1704164645 ∧
    parse_timestamp "garbage" = 0 ∧
    parse_timestamp "" = 0 ∧
    ∀ (sf : Option SummaryJson) (cf : Option CleanupJson) (r : Registry),
      ¬ 0 < parse_timestamp ((loaded_summary sf).timestamp.getD "") →
      (update_metrics sf cf r).rally_last_run_timestamp =
        r.rally_last_run_timestamp := by
  refine ⟨by decide, by decide, by decide, ?_⟩
  intro sf cf r h
  rw [update_metrics_eq]
  simp [scrape_result, h]

/-- C4 witness: a summary whose timestamp is the unparsable `"bogus"`
leaves a previously set last-run gauge at 5. -/
theorem parse_timestamp_spec_witness :
    (update_metrics (some { timestamp := some "bogus" }) (some {})
      { rally_last_run_timestamp := 5 }).rally_last_run_timestamp = 5 :=
  parse_timestamp_spec.2.2.2 (some { timestamp := some "bogus" }) (some {})
    { rally_last_run_timestamp := 5 } (by decide)

/-- C4 counterexample.  `"20240102t030405z"` does not match the exact
pattern `YYYYMMDDTHHMMSSZ` (lower-case `t`/`z`), yet `strptime` parses
it (its literals are matched under `re.IGNORECASE`), `parse_timestamp`
returns 1704164645, and the scrape does set the last-run gauge.
Likewise `"202412 1T030405Z"`, with a space-padded day, parses via the
`" [1-9]"` alternative of `%d` to 2024-12-01T03:04:05 UTC and sets the
gauge. -/
theorem parse_timestamp_lenient_cex :
    spec_exact_pattern "20240102t030405z" = false ∧
    parse_timestamp "20240102t030405z" = 1704164645 ∧
    (update_metrics (some { timestamp := some "20240102t030405z" }) (some {})
      Registry.onStart).rally_last_run_timestamp = 1704164645 ∧
    spec_exact_pattern "202412 1T030405Z" = false ∧
    parse_timestamp "202412 1T030405Z" = 1733022245 ∧
    (update_metrics (some { timestamp := some "202412 1T030405Z" }) (some {})
      Registry.onStart).rally_last_run_timestamp = 1733022245 := by
  refine ⟨by decide, by decide, by decide, by decide, by decide, by decide⟩

/-- C7 (amended).  When both result files are present and parse, a
scrape is idempotent on the registry: a second scrape of the same files
reproduces the first scrape's registry state exactly, so the serialized
exposition (a deterministic function of that state) is byte-identical.
(With a missing or corrupt file the error counter grows on every scrape
and the expositions differ, see the counterexample.) -/
theorem scrape_idempotent (sum : SummaryJson) (cl : CleanupJson)
    (r : Registry) :
    update_metrics (some sum) (some cl)
      (update_metrics (some sum) (some cl) r) =
    update_metrics (some sum) (some cl) r := by
  simp only [update_metrics_eq]
  simp only [scrape_result, loaded_summary, loaded_cleanup, summary_err,
    cleanup_err]
  by_cases h1 : 0 < parse_timestamp (sum.timestamp.getD "") <;>
    by_cases h2 : 0 < sum.run_duration_seconds.getD 0 <;>
    simp [h1, h2]

/-- C7 counterexample.  With `cleanup_metrics.json` missing (an
unchanged file set), the second scrape's registry differs from the
first's: the error counter has grown from 1 to 2, and the exposition
renders that counter. -/
theorem scrape_not_idempotent_cex :
    update_metrics (some {}) none
      (update_metrics (some {}) none Registry.onStart) ≠
    update_metrics (some {}) none Registry.onStart := by
  intro h
  have h2 := congrArg
    (fun r : Registry =>
      count_of r.rally_exporter_errors_total "cleanup_metrics.json") h
  simp only [update_metrics_eq, scrape_result, summary_err, cleanup_err,
    count_of_cinc_self] at h2
  simp [count_of, lget, Registry.onStart] at h2

/-- The `/ready` handler returns the registry exactly as the summary
load left it. -/
theorem ready_snd (now : Rat) (max_age_minutes : Int)
    (sf : Option SummaryJson) (r : Registry) :
    (ready now max_age_minutes sf r).2 = (load_latest_summary sf r).2 := by
  simp only [ready]
  split_ifs <;> rfl

/-- C9.  The `rally_exporter_errors_total` counter is monotone: for
every file label, neither a scrape (whatever the file states), nor a
`/ready` evaluation, nor either load function ever decreases it — in
particular the per-scrape clear step never touches the counter. -/
theorem error_counter_monotone (sf : Option SummaryJson)
    (cf : Option CleanupJson) (now : Rat) (max_age_minutes : Int)
    (r : Registry) (lbl : String) :
    count_of r.rally_exporter_errors_total lbl ≤
      count_of (update_metrics sf cf r).rally_exporter_errors_total lbl ∧
    count_of r.rally_exporter_errors_total lbl ≤
      count_of ((ready now max_age_minutes sf r).2).rally_exporter_errors_total
        lbl ∧
    count_of r.rally_exporter_errors_total lbl ≤
      count_of ((load_latest_summary sf r).2).rally_exporter_errors_total lbl ∧
    count_of r.rally_exporter_errors_total lbl ≤
      count_of ((load_cleanup_metrics cf r).2).rally_exporter_errors_total
        lbl := by
  have hsum : ∀ g : List (String × Rat),
      count_of g lbl ≤ count_of (summary_err sf g) lbl := by
    intro g
    cases sf <;> simp [summary_err, count_of_le_cinc]
  have hcl : ∀ g : List (String × Rat),
      count_of g lbl ≤ count_of (cleanup_err cf g) lbl := by
    intro g
    cases cf <;> simp [cleanup_err, count_of_le_cinc]
  refine ⟨?_, ?_, ?_, ?_⟩
  · rw [update_metrics_eq]
    simp only [scrape_result]
    exact le_trans (hsum _) (hcl _)
  · rw [ready_snd]
    cases sf <;> simp [load_latest_summary, count_of_le_cinc]
  · cases sf <;> simp [load_latest_summary, count_of_le_cinc]
  · cases cf <;> simp [load_cleanup_metrics, count_of_le_cinc]

/-- C5.  `/ready` responds 503 with `timestamp_missing` among the
reasons whenever the loaded timestamp is one of the sentinels `""`,
`"none"`, `"waiting_for_first_run"`; and it responds 200 with
`ready: true` and `age_minutes` rounded to two decimals whenever the
timestamp parses in the fixed format, its age stays below the
max-age threshold, and some service has a status other than
`"pending"`. -/
theorem ready_endpoint_spec (now : Rat) (max_age_minutes : Int)
    (sf : Option SummaryJson) (r : Registry) :
    ((loaded_summary sf).timestamp.getD "" = "waiting_for_first_run" ∨
     (loaded_summary sf).timestamp.getD "" = "none" ∨
     (loaded_summary sf).timestamp.getD "" = "" →
      (ready now max_age_minutes sf r).1.status_code = 503 ∧
      "timestamp_missing" ∈ (ready now max_age_minutes sf r).1.reasons) ∧
    (∀ dt : PyDateTime,
      datetime_strptime ((loaded_summary sf).timestamp.getD "") = some dt →
      now - (py_epoch dt : Rat) < (max_age_minutes : Rat) * 60 →
      (∃ e ∈ (loaded_summary sf).services.getD
          ([] : List (String × ServiceJson)),
        e.2.status.getD "pending" ≠ "pending") →
      (ready now max_age_minutes sf r).1.status_code = 200 ∧
      (ready now max_age_minutes sf r).1.ready = true ∧
      (ready now max_age_minutes sf r).1.age_minutes =
        some (py_round2 ((now - (py_epoch dt : Rat)) / 60))) := by
  constructor
  · intro h
    simp only [ready, load_latest_summary_fst]
    have hb : ((loaded_summary sf).timestamp.getD "" = "waiting_for_first_run" ∨
        (loaded_summary sf).timestamp.getD "" = "none" ∨
        (loaded_summary sf).timestamp.getD "" = "") := h
    rcases hb with hb | hb | hb <;>
      by_cases hall : ((loaded_summary sf).services.getD
          ([] : List (String × ServiceJson))).all
          (fun e => decide (e.2.status.getD "pending" = "pending")) = true <;>
      simp [hb, hall]
  · intro dt hdt hage hnp
    have hw : (loaded_summary sf).timestamp.getD "" ≠ "waiting_for_first_run" := by
      intro hh
      have h0 : datetime_strptime "waiting_for_first_run" =
          (none : Option PyDateTime) := by decide
      rw [hh, h0] at hdt
      exact Option.noConfusion hdt
    have hn : (loaded_summary sf).timestamp.getD "" ≠ "none" := by
      intro hh
      have h0 : datetime_strptime "none" = (none : Option PyDateTime) := by
        decide
      rw [hh, h0] at hdt
      exact Option.noConfusion hdt
    have he : (loaded_summary sf).timestamp.getD "" ≠ "" := by
      intro hh
      have h0 : datetime_strptime "" = (none : Option PyDateTime) := by decide
      rw [hh, h0] at hdt
      exact Option.noConfusion hdt
    have hlt : ¬ ((max_age_minutes : Rat) * 60 ≤ now - (py_epoch dt : Rat)) :=
      not_le.mpr hage
    have hallf : ¬ (((loaded_summary sf).services.getD
        ([] : List (String × ServiceJson))).all
        (fun e => decide (e.2.status.getD "pending" = "pending")) = true) := by
      rw [List.all_eq_true]
      push_neg
      rcases hnp with ⟨e, hev, hne⟩
      exact ⟨e, hev, by simpa using hne⟩
    simp [ready, load_latest_summary_fst, hw, hn, he, hdt, hlt, hallf]

/-- C5 witness: a `waiting_for_first_run` summary is not ready (503,
`timestamp_missing`); a fresh `20240102T030405Z` summary with a passed
service, checked 60 seconds later against the default 480-minute limit,
is ready (200) with the rounded age reported; and a fresh space-padded
`202412 1T030405Z` timestamp, which only the lenient `strptime` parse
accepts, is likewise ready (200). -/
theorem ready_endpoint_spec_witness :
    (ready 1704164705 480 (some waiting_doc)
      Registry.onStart).1.status_code = 503 ∧
    "timestamp_missing" ∈
      (ready 1704164705 480 (some waiting_doc) Registry.onStart).1.reasons ∧
    (ready 1704164705 480 (some fresh_doc)
      Registry.onStart).1.status_code = 200 ∧
    (ready 1704164705 480 (some fresh_doc) Registry.onStart).1.ready = true ∧
    (ready 1704164705 480 (some fresh_doc) Registry.onStart).1.age_minutes =
      some (py_round2 ((1704164705 -
        (py_epoch ⟨2024, 1, 2, 3, 4, 5⟩ : Rat)) / 60)) ∧
    (ready 1733022305 480 (some spaceday_doc)
      Registry.onStart).1.status_code = 200 ∧
    (ready 1733022305 480 (some spaceday_doc) Registry.onStart).1.ready =
      true := by
  have hA := (ready_endpoint_spec 1704164705 480 (some waiting_doc)
    Registry.onStart).1 (Or.inl (by decide))
  have hB := (ready_endpoint_spec 1704164705 480 (some fresh_doc)
    Registry.onStart).2 ⟨2024, 1, 2, 3, 4, 5⟩ (by decide)
    (by rw [show py_epoch ⟨2024, 1, 2, 3, 4, 5⟩ = 1704164645 from by decide]
        norm_num)
    ⟨("nova", { status := some "passed" }), by simp [fresh_doc, loaded_summary],
      by decide⟩
  have hC := (ready_endpoint_spec 1733022305 480 (some spaceday_doc)
    Registry.onStart).2 ⟨2024, 12, 1, 3, 4, 5⟩ (by decide)
    (by rw [show py_epoch ⟨2024, 12, 1, 3, 4, 5⟩ = 1733022245 from by decide]
        norm_num)
    ⟨("nova", { status := some "passed" }),
      by simp [spaceday_doc, loaded_summary], by decide⟩
  exact ⟨hA.1, hA.2, hB.1, hB.2.1, hB.2.2, hC.1, hC.2.1⟩

/-- Keys of the writes the service loop emits for a task gauge come
from the loaded services and their scenario names. -/
theorem mem_map_fst_service_writes (f : ScenarioJson → Rat)
    (S : List (String × ServiceJson)) (k : String × String)
    (h : k ∈ (service_writes f S).map Prod.fst) :
    ∃ e ∈ S, ∃ sc ∈ e.2.scenarios.getD ([] : List ScenarioJson),
      k = (e.1, sc.name.getD "unknown") := by
  simp only [service_writes, scenario_writes, List.map_flatMap,
    List.mem_flatMap, List.map_map, List.mem_map, Function.comp] at h
  obtain ⟨e, he, sc, hsc, hk⟩ := h
  exact ⟨e, he, sc, hsc, hk.symm⟩

/-- Keys after applying a list of `(key e, val e)` writes to the empty
child map come from the written entries. -/
theorem mem_gkeys_applyW_map {α β : Type} [DecidableEq α] (l : List β)
    (key : β → α) (val : β → Rat) (k : α)
    (h : k ∈ gkeys (applyW [] (l.map fun e => (key e, val e)))) :
    ∃ e ∈ l, k = key e := by
  rcases mem_gkeys_applyW _ _ _ h with h1 | h1
  · simp [gkeys] at h1
  · simp only [List.map_map, List.mem_map, Function.comp] at h1
    obtain ⟨e, he, hk⟩ := h1
    exact ⟨e, he, hk.symm⟩

/-- C2 (amended).  After a scrape, for every service entry and every
scenario of that service — provided the scenario names within the
service are pairwise distinct (for a repeated name the last entry wins,
see the counterexample; the service names are distinct because Python
dict keys are) and the scenario's `failures` field (default 0) is a
natural number as the data model requires — the `rally_task_success`
child labeled `(service, name)` holds `1 - min(failures, 1)`. -/
theorem task_success_formula (sum : SummaryJson) (cl : CleanupJson)
    (r : Registry) (svc : String) (data : ServiceJson) (sc : ScenarioJson)
    (hmem : (svc, data) ∈ sum.services.getD
      ([] : List (String × ServiceJson)))
    (hsc : sc ∈ data.scenarios.getD ([] : List ScenarioJson))
    (hkeys : ((sum.services.getD
      ([] : List (String × ServiceJson))).map Prod.fst).Nodup)
    (hnames : ((data.scenarios.getD ([] : List ScenarioJson)).map
      (fun x => x.name.getD "unknown")).Nodup)
    (hnat : ∃ n : ℕ, sc.failures.getD 0 = (n : Rat)) :
    lget (update_metrics (some sum) (some cl) r).rally_task_success
      (svc, sc.name.getD "unknown") =
    some (1 - min (sc.failures.getD 0) 1) := by
  have hval : success_of sc = 1 - min (sc.failures.getD 0) 1 := by
    rcases hnat with ⟨n, hn⟩
    cases n with
    | zero =>
        rw [hn]
        simp [success_of, hn]
    | succ m =>
        have h0 : sc.failures.getD 0 ≠ 0 := by
          rw [hn]
          exact_mod_cast Nat.succ_ne_zero m
        have h1 : (1 : Rat) ≤ sc.failures.getD 0 := by
          rw [hn]
          exact_mod_cast Nat.succ_le_succ (Nat.zero_le m)
        rw [min_eq_right h1]
        simp [success_of, h0]
  rw [update_metrics_eq]
  simp only [scrape_result, loaded_summary]
  obtain ⟨l1, l2, hS⟩ := List.append_of_mem hmem
  obtain ⟨m1, m2, hM⟩ := List.append_of_mem hsc
  have hsplit : service_writes success_of (sum.services.getD
      ([] : List (String × ServiceJson))) =
      (service_writes success_of l1 ++ scenario_writes svc success_of m1) ++
      ((svc, sc.name.getD "unknown"), success_of sc) ::
      (scenario_writes svc success_of m2 ++ service_writes success_of l2) := by
    rw [hS]
    simp [service_writes, scenario_writes, hM, List.flatMap_append,
      List.flatMap_cons, List.map_append, List.map_cons, List.append_assoc]
  rw [hsplit, hval]
  apply lget_applyW_last
  intro w hw
  have hname2 : sc.name.getD "unknown" ∉
      m2.map (fun x => x.name.getD "unknown") := by
    rw [hM] at hnames
    rw [List.map_append, List.map_cons] at hnames
    exact (List.nodup_cons.mp hnames.of_append_right).1
  have hsvc2 : svc ∉ l2.map Prod.fst := by
    rw [hS] at hkeys
    rw [List.map_append, List.map_cons] at hkeys
    exact (List.nodup_cons.mp hkeys.of_append_right).1
  rcases List.mem_append.mp hw with hw1 | hw1
  · simp only [scenario_writes, List.mem_map] at hw1
    obtain ⟨x, hx, rfl⟩ := hw1
    intro hk
    simp only [Prod.mk.injEq] at hk
    apply hname2
    rw [← hk.2]
    exact List.mem_map.mpr ⟨x, hx, rfl⟩
  · simp only [service_writes, scenario_writes, List.mem_flatMap,
      List.mem_map] at hw1
    obtain ⟨e, he, x, hx, rfl⟩ := hw1
    intro hk
    simp only [Prod.mk.injEq] at hk
    apply hsvc2
    rw [← hk.1]
    exact List.mem_map.mpr ⟨e, he, rfl⟩

/-- C2 witness: a scenario `"a"` with `failures = 2` under service
`"svc"` yields the child value `1 - min(2, 1)` (that is, 0). -/
theorem task_success_formula_witness :
    lget (update_metrics (some two_fail_doc) (some {})
      Registry.onStart).rally_task_success ("svc", "a") =
    some (1 - min (2 : Rat) 1) :=
  task_success_formula two_fail_doc {} Registry.onStart "svc" two_fail_svc
    two_fail_sc (by decide) (by decide) (by decide) (by decide)
    ⟨2, by norm_num [two_fail_sc]⟩

/-- C2 counterexample.  In `dup_name_doc` two scenarios of the service
`"svc"` share the name `"x"`; the later (passing) write wins, the gauge
child reads 1, and the claim's per-entry equation fails for the earlier
entry with `failures = 1`, whose formula value is `1 - min(1,1) = 0`. -/
theorem task_success_claim_cex :
    lget (update_metrics (some dup_name_doc) (some {})
      Registry.onStart).rally_task_success ("svc", "x") = some 1 ∧
    ¬ (∀ e ∈ dup_name_doc.services.getD ([] : List (String × ServiceJson)),
        ∀ sc ∈ e.2.scenarios.getD ([] : List ScenarioJson),
          lget (update_metrics (some dup_name_doc) (some {})
            Registry.onStart).rally_task_success (e.1, sc.name.getD "unknown") =
          some (1 - min (sc.failures.getD 0) 1)) := by
  have hl : lget (update_metrics (some dup_name_doc) (some {})
      Registry.onStart).rally_task_success ("svc", "x") = some 1 := by decide
  refine ⟨hl, ?_⟩
  intro hall
  have h := hall ("svc", dup_svc) (by decide) dup_sc1 (by decide)
  simp only [dup_sc1, Option.getD_some] at h
  rw [hl] at h
  rw [Option.some_inj] at h
  norm_num [min_self] at h

/-- C6.  Whenever a service name and a scenario name occur nowhere in
the inputs of the second of two consecutive scrapes (not among the
summary's services or scenario names, the cleanup maps' keys, or the
services image of the resource-type table), the registry the second
scrape leaves carries no per-entity gauge child labeled with them: the
clear step drops all ten labeled gauges before repopulating. -/
theorem stale_labels_cleared (sf1 : Option SummaryJson)
    (cf1 : Option CleanupJson) (r0 : Registry) (sum2 : SummaryJson)
    (cl2 : CleanupJson) (svc scen : String)
    (h1 : ∀ e ∈ sum2.services.getD ([] : List (String × ServiceJson)),
      e.1 ≠ svc)
    (h2 : ∀ e ∈ cl2.orphaned_resources.getD ([] : List (String × Rat)),
      e.1 ≠ svc)
    (h3 : ∀ e ∈ cl2.details.getD ([] : List (String × Rat)),
      svc_map e.1 ≠ svc)
    (h4 : ∀ e ∈ cl2.context_orphaned_resources.getD
      ([] : List (String × Rat)), e.1 ≠ svc)
    (h5 : ∀ e ∈ cl2.context_details.getD ([] : List (String × Rat)),
      svc_map e.1 ≠ svc)
    (h6 : ∀ e ∈ sum2.services.getD ([] : List (String × ServiceJson)),
      ∀ sc ∈ e.2.scenarios.getD ([] : List ScenarioJson),
        sc.name.getD "unknown" ≠ scen) :
    no_service_label svc
      (update_metrics (some sum2) (some cl2)
        (update_metrics sf1 cf1 r0)) ∧
    no_scenario_label scen
      (update_metrics (some sum2) (some cl2)
        (update_metrics sf1 cf1 r0)) := by
  rw [update_metrics_eq (some sum2) (some cl2)]
  simp only [scrape_result, loaded_summary, loaded_cleanup]
  have htask : ∀ (f : ScenarioJson → Rat) (k : String × String),
      k ∈ gkeys (applyW [] (service_writes f
        (sum2.services.getD ([] : List (String × ServiceJson))))) →
      k.1 ≠ svc ∧ k.2 ≠ scen := by
    intro f k hk
    rcases mem_gkeys_applyW _ _ _ hk with hk1 | hk1
    · simp [gkeys] at hk1
    · obtain ⟨e, he, sc, hsc, rfl⟩ := mem_map_fst_service_writes f _ k hk1
      exact ⟨h1 e he, h6 e he sc hsc⟩
  constructor
  · refine ⟨fun k hk => (htask _ k hk).1, fun k hk => (htask _ k hk).1,
      fun k hk => (htask _ k hk).1, fun k hk => (htask _ k hk).1,
      fun k hk => (htask _ k hk).1, ?_, ?_, ?_, ?_, ?_⟩
    · intro k hk
      obtain ⟨e, he, rfl⟩ := mem_gkeys_applyW_map _ _ _ k hk
      exact h1 e he
    · intro k hk
      obtain ⟨e, he, rfl⟩ := mem_gkeys_applyW_map _ _ _ k hk
      exact h2 e he
    · intro k hk
      rcases mem_gkeys_applyW _ _ _ hk with hk1 | hk1
      · obtain ⟨e, he, rfl⟩ := mem_gkeys_applyW_map _ _ _ k hk1
        exact h2 e he
      · simp only [List.map_map, List.mem_map, Function.comp] at hk1
        obtain ⟨e, he, rfl⟩ := hk1
        exact h3 e he
    · intro k hk
      obtain ⟨e, he, rfl⟩ := mem_gkeys_applyW_map _ _ _ k hk
      exact h4 e he
    · intro k hk
      rcases mem_gkeys_applyW _ _ _ hk with hk1 | hk1
      · obtain ⟨e, he, rfl⟩ := mem_gkeys_applyW_map _ _ _ k hk1
        exact h4 e he
      · simp only [List.map_map, List.mem_map, Function.comp] at hk1
        obtain ⟨e, he, rfl⟩ := hk1
        exact h5 e he
  · exact ⟨fun k hk => (htask _ k hk).2, fun k hk => (htask _ k hk).2,
      fun k hk => (htask _ k hk).2, fun k hk => (htask _ k hk).2,
      fun k hk => (htask _ k hk).2⟩

/-- C6 witness: after a scrape whose inputs mention only `nova`,
`glance`, `keystone`-side entities, no gauge child is labeled with the
previously scraped service `"gone"` or scenario `"oldscen"`. -/
theorem stale_labels_cleared_witness :
    no_service_label "gone"
      (update_metrics (some second_sum) (some second_cleanup)
        (update_metrics (some first_sum) (some {}) Registry.onStart)) ∧
    no_scenario_label "oldscen"
      (update_metrics (some second_sum) (some second_cleanup)
        (update_metrics (some first_sum) (some {}) Registry.onStart)) :=
  stale_labels_cleared (some first_sum) (some {}) Registry.onStart second_sum
    second_cleanup "gone" "oldscen" (by decide) (by decide) (by decide)
    (by decide) (by decide) (by decide)

end RallyExporter
